import Mathlib

/-!
Verification of `ffi-helpers` (`src/lib.rs`): a build-time helper that
classifies a target triple, assembles default clang arguments, resolves the
Apple SDK sysroot, and discovers framework bundles under a directory tree.

The Rust source is shallowly embedded: external collaborators (the `TARGET`
environment variable, the `xcrun` subprocess, the directory walk) are passed
in as explicit arguments; panics (`unwrap`/`expect`) are modelled with
`Except.error`.
-/

namespace FfiHelpers

/-- Substring containment on lists of characters: `containsSub pat l` is true
iff `pat` occurs as a contiguous run inside `l`.  This embeds Rust's
`str::contains` with a string pattern. -/
def containsSub (pat : List Char) : List Char → Bool
  | [] => pat.isEmpty
  | c :: rest => pat.isPrefixOf (c :: rest) || containsSub pat rest

/-- `scontains s pat` embeds Rust's `s.contains(pat)`. -/
def scontains (s pat : String) : Bool :=
  containsSub pat.toList s.toList

/-- `enum TargetOs` from the source: each recognized variant carries the
original triple string. -/
inductive TargetOs where
  | Ios (t : String)
  | Android (t : String)
  | MacOs (t : String)
deriving DecidableEq, Repr

/-- `TargetOs::detect` from the source.  In the source the triple is read
from the `TARGET` environment variable via `target()`; here the triple that
read produced is passed as the argument.  The match order of the source is
kept: `ios` first, then `apple`, then `android`, else `None`. -/
def TargetOs.detect (target : String) : Option TargetOs :=
  if scontains target "ios" then some (TargetOs.Ios target)
  else if scontains target "apple" then some (TargetOs.MacOs target)
  else if scontains target "android" then some (TargetOs.Android target)
  else none

/-- The mutually exclusive `cpp-11` / `cpp-14` / `cpp-17` cargo features:
exactly one is selected per build configuration. -/
inductive CppStd where
  | cpp11
  | cpp14
  | cpp17
deriving DecidableEq, Repr

/-- The `CPP_VERSION` constant selected by the active feature. -/
def CPP_VERSION : CppStd → String
  | CppStd.cpp11 => "-std=c++11"
  | CppStd.cpp14 => "-std=c++14"
  | CppStd.cpp17 => "-std=c++17"

/-- `target()` from the source: `std::env::var("TARGET").unwrap()`.  The
environment read is the argument; the `unwrap` panic on an absent variable is
modelled as `Except.error`. -/
def target (env : Option String) : Except String String :=
  match env with
  | some t => Except.ok t
  | none => Except.error "environment variable TARGET is not set"

/-- The SDK-kind determination inside `sdk_path` (the `let sdk = if ...`
chain): `apple-darwin` substring first, then the two simulator triples, then
the two device triples, else the early `return None`. -/
def sdkKind (target : String) : Option String :=
  if scontains target "apple-darwin" then some "macosx"
  else if target == "x86_64-apple-ios" || target == "i386-apple-ios" then
    some "iphonesimulator"
  else if target == "aarch64-apple-ios" || target == "armv7-apple-ios" then
    some "iphoneos"
  else none

/-- `sdk_path` from the source, with the `xcrun --sdk <kind> --show-sdk-path`
subprocess passed in as `xcrun` (`none` models a failed invocation).  On a
determined SDK kind, a successful invocation's stdout is trimmed
(`run_and_wait_for_str(|s| s.trim().to_string())`); a failed invocation is
the `expect("xcrun command failed")` panic, modelled as `Except.error`.  When
no SDK kind is determined the early return yields `None` and the tool is
never invoked. -/
def sdkPathRun (xcrun : String → Option String) (target : String) :
    Except String (Option String) :=
  match sdkKind target with
  | none => Except.ok none
  | some sdk =>
    match xcrun sdk with
    | some out => Except.ok (some out.trim)
    | none => Except.error "xcrun command failed"

/-- `default_clang_args` from the source.  The triple (read from the
environment by `target()`) and the `sdk_path` collaborator (whose successful
result is `Option String`, per the source signature) are passed as arguments.
The body mirrors the source statement by statement: the initial `vec!`, the
`apple` branch (sysroot pair then `apple_args`), the `android` branch, the
`aarch64-apple-ios` → `arm64-apple-ios` rebinding of `target`, the `-I`
include flags, and the final `--target=` flag.  Each `iter().for_each(push)`
is a left fold pushing one element. -/
def defaultClangArgs (sdk_path : String → Option String) (cpp : CppStd)
    (includes apple_args android_args : List String) (target : String) :
    List String :=
  let args : List String := ["-xc++", "-stdlib=libc++", CPP_VERSION cpp]
  let args :=
    if scontains target "apple" then
      let args :=
        match sdk_path target with
        | some sdk => args ++ ["-isysroot", sdk]
        | none => args
      apple_args.foldl (fun a arg => a ++ [arg]) args
    else args
  let args :=
    if scontains target "android" then
      android_args.foldl (fun a arg => a ++ [arg]) args
    else args
  let target := if target == "aarch64-apple-ios" then "arm64-apple-ios" else target
  let args := includes.foldl (fun a inc => a ++ ["-I" ++ inc]) args
  args ++ ["--target=" ++ target]

/-- Rust `Path::file_stem` / `Path::extension` on a single file name:
everything before the final `.` is the stem and everything after it the
extension, except that a leading-dot-only name (or `".."`) has no
extension. -/
def splitFileAtDot (file : String) : String × Option String :=
  if file == ".." then (file, none)
  else
    let cs := file.toList
    match (cs.reverse.findIdx? (fun c => c == '.')) with
    | none => (file, none)
    | some j =>
      let i := cs.length - 1 - j
      if i == 0 then (file, none)
      else (String.mk (cs.take i), some (String.mk (cs.drop (i + 1))))

/-- Rust `Path::extension` on a path modelled as its list of components. -/
def pathExtension (p : List String) : Option String :=
  p.getLast?.bind fun f => (splitFileAtDot f).2

/-- Rust `Path::file_stem` on a component-list path. -/
def pathFileStem (p : List String) : Option String :=
  p.getLast?.map fun f => (splitFileAtDot f).1

/-- Rust `Path::display` (and `parent` via `dropLast` at call sites). -/
def displayPath (p : List String) : String :=
  String.intercalate "/" p

/-- `recursive_link_dir` from the source.  The `walkdir::WalkDir` traversal
is passed in as `walk`, a list of entry results (`none` is an `Err` entry,
dropped by `filter_map(|e| e.ok())`).  The first `filter` drops any entry one
of whose path components equals one of the `filters`; the second keeps
entries whose extension is `framework`; each surviving entry prints a
`cargo:rustc-link-search` line for its parent and a `cargo:rustc-link-lib`
line for its file stem.  The printed lines are returned in order; the
`unwrap`s on `parent`/`file_stem` are modelled by defaults, which are never
hit on entries that pass the extension filter. -/
def recursiveLinkDir (walk : List (Option (List String)))
    (filters : List String) : List String :=
  let frameworks :=
    ((walk.filterMap id).filter fun e =>
        !(e.any fun component => filters.any fun filter => filter == component)).filter
      fun d =>
        match pathExtension d with
        | some extension => extension == "framework"
        | none => false
  frameworks.flatMap fun path =>
    ["cargo:rustc-link-search=framework=" ++ displayPath path.dropLast,
     "cargo:rustc-link-lib=framework=" ++ (pathFileStem path).getD ""]

/-- Folding a push of one mapped element over a list appends the mapped
list: the shape of every `iter().for_each(|x| args.push(..))` loop. -/
theorem foldl_push_eq {α β : Type} (f : α → β) (l : List α) :
    ∀ acc : List β, l.foldl (fun a x => a ++ [f x]) acc = acc ++ l.map f := by
  induction l with
  | nil => intro acc; simp
  | cons x xs ih => intro acc; simp [List.foldl, ih, List.append_assoc]

/-- Normal form of `defaultClangArgs`: the output is the fixed prefix, the
Apple segment, the Android segment, the include flags, and the target flag,
concatenated in that order. -/
theorem defaultClangArgs_eq (sdk_path : String → Option String) (cpp : CppStd)
    (includes apple_args android_args : List String) (t : String) :
    defaultClangArgs sdk_path cpp includes apple_args android_args t =
      ["-xc++", "-stdlib=libc++", CPP_VERSION cpp]
        ++ (if scontains t "apple" then
              (match sdk_path t with
               | some sdk => ["-isysroot", sdk]
               | none => []) ++ apple_args
            else [])
        ++ (if scontains t "android" then android_args else [])
        ++ includes.map (fun inc => "-I" ++ inc)
        ++ ["--target=" ++ (if t == "aarch64-apple-ios" then "arm64-apple-ios" else t)] := by
  unfold defaultClangArgs
  cases h1 : scontains t "apple" <;> cases h2 : scontains t "android" <;>
    cases h3 : sdk_path t <;>
      simp [h1, h2, h3, foldl_push_eq, List.append_assoc]

/-- A list ending in a singleton has that singleton's element as its last
element, through three leading appended segments. -/
theorem getLast?_append4 {α : Type} (l1 l2 l3 l4 : List α) (x : α) :
    (l1 ++ (l2 ++ (l3 ++ (l4 ++ [x])))).getLast? = some x := by
  simp

/-- C1 (counterexample): the triple `"ios-android"` is classified iOS
(`detect` matches the `ios` substring first), yet `default_clang_args` does
not append the Apple extras (the `apple` substring check fails) and does
append the Android extras (the `android` substring check succeeds) — so
extras do not follow the classification, refuting the claim as stated. -/
theorem claim_C1_counterexample :
    TargetOs.detect "ios-android" = some (TargetOs.Ios "ios-android")
    ∧ "APPLE_EXTRA" ∉ defaultClangArgs (fun _ => none) CppStd.cpp17 []
        ["APPLE_EXTRA"] ["ANDROID_EXTRA"] "ios-android"
    ∧ "ANDROID_EXTRA" ∈ defaultClangArgs (fun _ => none) CppStd.cpp17 []
        ["APPLE_EXTRA"] ["ANDROID_EXTRA"] "ios-android" := by
  refine ⟨rfl, ?_, ?_⟩ <;> decide

/-- C1 (amended): for every input to `default_clang_args`, the Apple extras
(preceded, when the resolver returns a path, by the `-isysroot`/path pair)
are appended exactly when the triple contains the substring `"apple"`, and
the Android extras are appended exactly when the triple contains the
substring `"android"` — conditions implied by, but not identical to, the
iOS/macOS/Android classification. -/
theorem claim_C1 : ∀ (sdk_path : String → Option String) (cpp : CppStd)
    (includes apple_args android_args : List String) (t : String),
    defaultClangArgs sdk_path cpp includes apple_args android_args t =
      ["-xc++", "-stdlib=libc++", CPP_VERSION cpp]
        ++ (if scontains t "apple" then
              (match sdk_path t with
               | some sdk => ["-isysroot", sdk]
               | none => []) ++ apple_args
            else [])
        ++ (if scontains t "android" then android_args else [])
        ++ includes.map (fun inc => "-I" ++ inc)
        ++ ["--target=" ++ (if t == "aarch64-apple-ios" then "arm64-apple-ios" else t)] :=
  defaultClangArgs_eq

/-- C2: for the triple `"aarch64-apple-ios"` the output of
`default_clang_args` ends with the target flag built from the corrected
identifier `"arm64-apple-ios"`, while the SDK lookup receives the original
string `"aarch64-apple-ios"`; for every other triple the last element is the
target flag with the triple unchanged. -/
theorem claim_C2 :
    (∀ (sdk_path : String → Option String) (cpp : CppStd)
        (includes apple_args android_args : List String),
      defaultClangArgs sdk_path cpp includes apple_args android_args "aarch64-apple-ios" =
        ["-xc++", "-stdlib=libc++", CPP_VERSION cpp]
          ++ ((match sdk_path "aarch64-apple-ios" with
              | some sdk => ["-isysroot", sdk]
              | none => []) ++ apple_args)
          ++ includes.map (fun inc => "-I" ++ inc)
          ++ ["--target=arm64-apple-ios"])
    ∧ (∀ (sdk_path : String → Option String) (cpp : CppStd)
        (includes apple_args android_args : List String) (t : String),
      t ≠ "aarch64-apple-ios" →
      (defaultClangArgs sdk_path cpp includes apple_args android_args t).getLast? =
        some ("--target=" ++ t)) := by
  constructor
  · intro sdk_path cpp includes apple_args android_args
    have h1 : scontains "aarch64-apple-ios" "apple" = true := by decide
    have h2 : scontains "aarch64-apple-ios" "android" = false := by decide
    have h3 : ("--target=" ++ "arm64-apple-ios") = "--target=arm64-apple-ios" := rfl
    rw [defaultClangArgs_eq]
    cases h : sdk_path "aarch64-apple-ios" <;> simp [h, h1, h2, h3]
  · intro sdk_path cpp includes apple_args android_args t ht
    have hb : (t == "aarch64-apple-ios") = false := by simpa using ht
    rw [defaultClangArgs_eq]
    simp only [List.append_assoc]
    rw [getLast?_append4, if_neg (by simp [hb])]

/-- C2 (witness): a non-Apple triple keeps its own spelling in the final
target flag. -/
theorem claim_C2_witness :
    (defaultClangArgs (fun _ => none) CppStd.cpp17 [] [] [] "x86_64-unknown-linux-gnu").getLast? =
      some ("--target=" ++ "x86_64-unknown-linux-gnu") :=
  claim_C2.2 (fun _ => none) CppStd.cpp17 [] [] [] "x86_64-unknown-linux-gnu" (by decide)

/-- C3: the SDK-kind mapping of `sdk_path` yields `"iphonesimulator"`
exactly for the two simulator triples, `"iphoneos"` exactly for the two
device triples, `"macosx"` for any triple containing `"apple-darwin"` (such
a triple can equal none of the four), and otherwise no kind — in which case
`sdk_path` returns absent without invoking `xcrun`. -/
theorem claim_C3 : ∀ t : String,
    (sdkKind t = some "iphonesimulator" ↔ t = "x86_64-apple-ios" ∨ t = "i386-apple-ios")
    ∧ (sdkKind t = some "iphoneos" ↔ t = "aarch64-apple-ios" ∨ t = "armv7-apple-ios")
    ∧ (scontains t "apple-darwin" = true → sdkKind t = some "macosx")
    ∧ (scontains t "apple-darwin" = false → t ≠ "x86_64-apple-ios" → t ≠ "i386-apple-ios" →
        t ≠ "aarch64-apple-ios" → t ≠ "armv7-apple-ios" →
        sdkKind t = none ∧ ∀ xcrun : String → Option String,
          sdkPathRun xcrun t = Except.ok none) := by
  intro t
  refine ⟨⟨?_, ?_⟩, ⟨?_, ?_⟩, ?_, ?_⟩
  · intro h
    unfold sdkKind at h
    split_ifs at h with h1 h2 h3 <;> simp_all
  · rintro (h | h) <;> subst h <;> decide
  · intro h
    unfold sdkKind at h
    split_ifs at h with h1 h2 h3 <;> simp_all
  · rintro (h | h) <;> subst h <;> decide
  · intro h
    unfold sdkKind
    rw [if_pos h]
  · intro hd h1 h2 h3 h4
    have hk : sdkKind t = none := by
      unfold sdkKind
      rw [if_neg (by simp [hd]), if_neg (by simp [h1, h2]), if_neg (by simp [h3, h4])]
    exact ⟨hk, fun xcrun => by unfold sdkPathRun; rw [hk]⟩

/-- C3 (witness): one concrete triple in each branch of the mapping. -/
theorem claim_C3_witness :
    sdkKind "x86_64-apple-ios" = some "iphonesimulator"
    ∧ sdkKind "aarch64-apple-ios" = some "iphoneos"
    ∧ sdkKind "x86_64-apple-darwin" = some "macosx"
    ∧ sdkKind "x86_64-unknown-linux-gnu" = none
    ∧ sdkPathRun (fun _ => none) "x86_64-unknown-linux-gnu" = Except.ok none :=
  ⟨(claim_C3 "x86_64-apple-ios").1.mpr (Or.inl rfl),
   (claim_C3 "aarch64-apple-ios").2.1.mpr (Or.inl rfl),
   (claim_C3 "x86_64-apple-darwin").2.2.1 (by decide),
   ((claim_C3 "x86_64-unknown-linux-gnu").2.2.2 (by decide) (by decide) (by decide)
      (by decide) (by decide)).1,
   ((claim_C3 "x86_64-unknown-linux-gnu").2.2.2 (by decide) (by decide) (by decide)
      (by decide) (by decide)).2 (fun _ => none)⟩

/-- C4: `TargetOs::detect` is total, pure and first-match-wins: a triple
containing `"ios"` classifies as iOS regardless of other substrings;
otherwise one containing `"apple"` as macOS; otherwise one containing
`"android"` as Android; otherwise `none`; and re-classifying the same string
yields the same result. -/
theorem claim_C4 : ∀ t : String,
    (scontains t "ios" = true → TargetOs.detect t = some (TargetOs.Ios t))
    ∧ (scontains t "ios" = false → scontains t "apple" = true →
        TargetOs.detect t = some (TargetOs.MacOs t))
    ∧ (scontains t "ios" = false → scontains t "apple" = false →
        scontains t "android" = true → TargetOs.detect t = some (TargetOs.Android t))
    ∧ (scontains t "ios" = false → scontains t "apple" = false →
        scontains t "android" = false → TargetOs.detect t = none)
    ∧ TargetOs.detect t = TargetOs.detect t := by
  intro t
  refine ⟨?_, ?_, ?_, ?_, rfl⟩
  · intro h1
    unfold TargetOs.detect
    rw [if_pos h1]
  · intro h1 h2
    unfold TargetOs.detect
    rw [if_neg (by simp [h1]), if_pos h2]
  · intro h1 h2 h3
    unfold TargetOs.detect
    rw [if_neg (by simp [h1]), if_neg (by simp [h2]), if_pos h3]
  · intro h1 h2 h3
    unfold TargetOs.detect
    rw [if_neg (by simp [h1]), if_neg (by simp [h2]), if_neg (by simp [h3])]

/-- C4 (witness): one concrete triple per classification branch; the iOS
one also contains `"apple"`, showing the iOS match wins. -/
theorem claim_C4_witness :
    TargetOs.detect "aarch64-apple-ios" = some (TargetOs.Ios "aarch64-apple-ios")
    ∧ TargetOs.detect "x86_64-apple-darwin" = some (TargetOs.MacOs "x86_64-apple-darwin")
    ∧ TargetOs.detect "aarch64-linux-android" = some (TargetOs.Android "aarch64-linux-android")
    ∧ TargetOs.detect "x86_64-unknown-linux-gnu" = none :=
  ⟨(claim_C4 "aarch64-apple-ios").1 (by decide),
   (claim_C4 "x86_64-apple-darwin").2.1 (by decide) (by decide),
   (claim_C4 "aarch64-linux-android").2.2.1 (by decide) (by decide) (by decide),
   (claim_C4 "x86_64-unknown-linux-gnu").2.2.2.1 (by decide) (by decide) (by decide)⟩

/-- C5: the output of `default_clang_args` is ordered as language-mode and
standard flags, then the sysroot pair, then the platform-specific extras,
then one `-I`-prefixed flag per include directory in input order, with the
target-triple flag as the final element. -/
theorem claim_C5 : ∀ (sdk_path : String → Option String) (cpp : CppStd)
    (includes apple_args android_args : List String) (t : String),
    defaultClangArgs sdk_path cpp includes apple_args android_args t =
      ["-xc++", "-stdlib=libc++", CPP_VERSION cpp]
        ++ (if scontains t "apple" then
              (match sdk_path t with
               | some sdk => ["-isysroot", sdk]
               | none => [])
            else [])
        ++ ((if scontains t "apple" then apple_args else [])
            ++ (if scontains t "android" then android_args else []))
        ++ includes.map (fun inc => "-I" ++ inc)
        ++ ["--target=" ++ (if t == "aarch64-apple-ios" then "arm64-apple-ios" else t)] := by
  intro sdk_path cpp includes apple_args android_args t
  rw [defaultClangArgs_eq]
  cases h1 : scontains t "apple" <;> cases h2 : sdk_path t <;> simp [h1, h2]

/-- C6: `default_clang_args` is deterministic — identical inputs, with two
extensionally identical SDK-lookup collaborators, give identical
identically-ordered outputs. -/
theorem claim_C6 : ∀ (sdk1 sdk2 : String → Option String) (cpp : CppStd)
    (includes apple_args android_args : List String) (t : String),
    (∀ s, sdk1 s = sdk2 s) →
    defaultClangArgs sdk1 cpp includes apple_args android_args t =
      defaultClangArgs sdk2 cpp includes apple_args android_args t := by
  intro sdk1 sdk2 cpp includes apple_args android_args t h
  have : sdk1 = sdk2 := funext h
  rw [this]

/-- C6 (witness): determinism at one concrete input. -/
theorem claim_C6_witness :
    defaultClangArgs (fun _ => some "/sdk") CppStd.cpp14 ["/inc"] ["-fa"] ["-fb"]
        "aarch64-apple-ios" =
      defaultClangArgs (fun _ => some "/sdk") CppStd.cpp14 ["/inc"] ["-fa"] ["-fb"]
        "aarch64-apple-ios" :=
  claim_C6 (fun _ => some "/sdk") (fun _ => some "/sdk") CppStd.cpp14 ["/inc"] ["-fa"] ["-fb"]
    "aarch64-apple-ios" (fun _ => rfl)

/-- C7: `recursive_link_dir` treats entries independently (output is
additive over the walk), emits nothing for an entry with an excluded path
component, emits exactly one link-search/link-lib pair for an entry with no
excluded component and the `framework` extension, and on the
`A.framework` / `excluded/B.framework` tree with `"excluded"` filtered it
emits exactly the one pair for `A.framework`. -/
theorem claim_C7 :
    (∀ (w1 w2 : List (Option (List String))) (filters : List String),
      recursiveLinkDir (w1 ++ w2) filters =
        recursiveLinkDir w1 filters ++ recursiveLinkDir w2 filters)
    ∧ (∀ (e : List String) (filters : List String),
        (e.any fun component => filters.any fun filter => filter == component) = true →
        recursiveLinkDir [some e] filters = [])
    ∧ (∀ (e : List String) (filters : List String),
        (e.any fun component => filters.any fun filter => filter == component) = false →
        pathExtension e = some "framework" →
        recursiveLinkDir [some e] filters =
          ["cargo:rustc-link-search=framework=" ++ displayPath e.dropLast,
           "cargo:rustc-link-lib=framework=" ++ (pathFileStem e).getD ""])
    ∧ recursiveLinkDir
        [some ["root"], some ["root", "A.framework"], some ["root", "excluded"],
         some ["root", "excluded", "B.framework"]] ["excluded"] =
        ["cargo:rustc-link-search=framework=root", "cargo:rustc-link-lib=framework=A"] := by
  refine ⟨?_, ?_, ?_, rfl⟩
  · intro w1 w2 filters
    simp [recursiveLinkDir, List.filterMap_append, List.filter_append, List.flatMap_append]
  · intro e filters h
    simp [recursiveLinkDir, h]
  · intro e filters h1 h2
    simp [recursiveLinkDir, h1, h2]

/-- C7 (witness): the unfiltered `root/A.framework` entry alone yields its
search/lib pair. -/
theorem claim_C7_witness :
    recursiveLinkDir [some ["root", "A.framework"]] ["excluded"] =
      ["cargo:rustc-link-search=framework=" ++ displayPath ["root", "A.framework"].dropLast,
       "cargo:rustc-link-lib=framework=" ++ (pathFileStem ["root", "A.framework"]).getD ""] :=
  claim_C7.2.2.1 ["root", "A.framework"] ["excluded"] (by decide) (by decide)

/-- C8: unrecoverable configuration errors abort — `target()` fails (the
`unwrap` panic) when the `TARGET` environment value is absent, and
`sdk_path` fails (the `expect` panic) when an SDK kind was determined but
the `xcrun` invocation fails; neither substitutes a default. -/
theorem claim_C8 :
    target none = Except.error "environment variable TARGET is not set"
    ∧ (∀ (xcrun : String → Option String) (t sdk : String),
        sdkKind t = some sdk → xcrun sdk = none →
        sdkPathRun xcrun t = Except.error "xcrun command failed") := by
  constructor
  · rfl
  · intro xcrun t sdk h1 h2
    unfold sdkPathRun
    rw [h1]
    simp [h2]

/-- C8 (witness): a macOS triple with a failing `xcrun` aborts. -/
theorem claim_C8_witness :
    sdkPathRun (fun _ => none) "x86_64-apple-darwin" = Except.error "xcrun command failed" :=
  claim_C8.2 (fun _ => none) "x86_64-apple-darwin" "macosx" (by decide) rfl

/-- C9: for every input, the second element (index 1) of the output of
`default_clang_args` is `"-stdlib=libc++"`, whatever the classification. -/
theorem claim_C9 : ∀ (sdk_path : String → Option String) (cpp : CppStd)
    (includes apple_args android_args : List String) (t : String),
    (defaultClangArgs sdk_path cpp includes apple_args android_args t)[1]? =
      some "-stdlib=libc++" := by
  intro sdk_path cpp includes apple_args android_args t
  rw [defaultClangArgs_eq]
  rfl

/-- C10: for every triple containing `"apple"` on which the SDK resolver
returns absent, `default_clang_args` emits no `-isysroot` pair yet still
appends every Apple extra in order and completes; moreover on
`"armv7s-apple-ios"` (no SDK kind) `sdk_path` returns absent without error
for every `xcrun` behavior. -/
theorem claim_C10 : ∀ (sdk_path : String → Option String) (cpp : CppStd)
    (includes apple_args android_args : List String) (t : String),
    scontains t "apple" = true → sdk_path t = none →
    (defaultClangArgs sdk_path cpp includes apple_args android_args t =
      ["-xc++", "-stdlib=libc++", CPP_VERSION cpp]
        ++ apple_args
        ++ (if scontains t "android" then android_args else [])
        ++ includes.map (fun inc => "-I" ++ inc)
        ++ ["--target=" ++ (if t == "aarch64-apple-ios" then "arm64-apple-ios" else t)])
    ∧ (∀ xcrun : String → Option String,
        sdkPathRun xcrun "armv7s-apple-ios" = Except.ok none) := by
  intro sdk_path cpp includes apple_args android_args t h1 h2
  constructor
  · rw [defaultClangArgs_eq]
    simp [h1, h2]
  · intro xcrun
    have hk : sdkKind "armv7s-apple-ios" = none := by decide
    unfold sdkPathRun
    rw [hk]

/-- C10 (witness): `"armv7s-apple-ios"` with an absent SDK path gets its
Apple extras but no sysroot pair. -/
theorem claim_C10_witness :
    (defaultClangArgs (fun _ => none) CppStd.cpp17 ["/inc"] ["-fapple"] ["-fandroid"]
        "armv7s-apple-ios" =
      ["-xc++", "-stdlib=libc++", CPP_VERSION CppStd.cpp17]
        ++ ["-fapple"]
        ++ (if scontains "armv7s-apple-ios" "android" then ["-fandroid"] else [])
        ++ ["/inc"].map (fun inc => "-I" ++ inc)
        ++ ["--target=" ++ (if "armv7s-apple-ios" == "aarch64-apple-ios" then "arm64-apple-ios"
              else "armv7s-apple-ios")])
    ∧ (∀ xcrun : String → Option String,
        sdkPathRun xcrun "armv7s-apple-ios" = Except.ok none) :=
  claim_C10 (fun _ => none) CppStd.cpp17 ["/inc"] ["-fapple"] ["-fandroid"]
    "armv7s-apple-ios" (by decide) rfl

end FfiHelpers
